import Mathlib

/-!
Verification of the UserOperation lifecycle engine of `ethers-userop`.

The development shallowly embeds the Rust sources under `src/` as Lean
definitions: pure code becomes Lean functions, fallible code returns
`Except`/`Option` (`Option.none` models a Rust panic), and every interaction
with an external collaborator (the execution client, the bundler HTTP
endpoint, the ABI encoders, the signer) is an explicit field of an
environment record so that control flow and issued requests stay visible.
Machine integers (`U256`, `u64`) are modelled as `Nat`; saturating ops carry
an explicit bound.
-/

namespace EthersUserop

/-- Byte strings (`ethers::types::Bytes`, `Vec<u8>`): lists of byte values. -/
abbrev Bytes := List Nat

/-- Addresses (`ethers::types::Address`), abstracted to their numeric value. -/
abbrev Address := Nat

/-- Upper bound of `U256` values. -/
def U256_LIMIT : Nat := 2 ^ 256

/-- `U256::saturating_add` on in-range values. -/
def satAdd (a b : Nat) : Nat := min (a + b) (U256_LIMIT - 1)

/-- `U256::saturating_mul` on in-range values. -/
def satMul (a b : Nat) : Nat := min (a * b) (U256_LIMIT - 1)

/-- `u64` values are below `2 ^ 64`; `str::parse::<u64>` fails above it. -/
def U64_LIMIT : Nat := 2 ^ 64

/-- Whether an `Except` value is a success (Rust `Result::is_ok`). -/
def exceptIsOk {ε α : Type} : Except ε α → Bool
  | .ok _ => true
  | .error _ => false

/-- `UserOperationPartial` (silius_primitives, as installed empty by
`UserOperationBuilder::new`, src/uo_builder.rs:79-91): every field of a
UserOperation, each optional. -/
structure UserOperationPartial where
  sender : Option Address
  nonce : Option Nat
  init_code : Option Bytes
  call_data : Option Bytes
  call_gas_limit : Option Nat
  verification_gas_limit : Option Nat
  pre_verification_gas : Option Nat
  max_fee_per_gas : Option Nat
  max_priority_fee_per_gas : Option Nat
  paymaster_and_data : Option Bytes
  signature : Option Bytes
deriving DecidableEq, Repr

/-- The complete `UserOperation` wire structure (spec §3 canonical field
order). -/
structure UserOperation where
  sender : Address
  nonce : Nat
  init_code : Bytes
  call_data : Bytes
  call_gas_limit : Nat
  verification_gas_limit : Nat
  pre_verification_gas : Nat
  max_fee_per_gas : Nat
  max_priority_fee_per_gas : Nat
  paymaster_and_data : Bytes
  signature : Bytes
deriving DecidableEq, Repr

/-- The empty partial installed by `UserOperationBuilder::new`
(src/uo_builder.rs:79-91). -/
def emptyPartial : UserOperationPartial :=
  { sender := none, nonce := none, init_code := none, call_data := none
    call_gas_limit := none, verification_gas_limit := none
    pre_verification_gas := none, max_fee_per_gas := none
    max_priority_fee_per_gas := none, paymaster_and_data := none
    signature := none }

/-- `UserOpBuilderError` variants, as used at the call sites in
src/uo_builder.rs and src/userop_middleware.rs. -/
inductive UserOpBuilderError where
  | missingUserOperationField (name : String)
  | smartContractWalletAddressNotSet
  | smartContractWalletHasBeenDeployed
  | smartContractWalletHasNotBeenDeployed
deriving DecidableEq, Repr

/-- `UserOpMiddlewareError` variants, as used at the call sites in
src/userop_middleware.rs. -/
inductive UserOpMiddlewareError where
  | middlewareError
  | callGasLimitError (limit estimation : Nat)
  | preVerificationGasError (preVerificationGas calculated : Nat)
  | verificationGasLimitError
  | unknownError
  | userOpBuilderError (e : UserOpBuilderError)
deriving DecidableEq, Repr

/-- An `anyhow::Error` as it flows through the middleware: either it
downcasts to `UserOpMiddlewareError`, or to `UserOpBuilderError`, or it is a
transport-level failure (reqwest / serde_json), or an ad-hoc
`anyhow::anyhow!` message. Only the `.mw` case succeeds under
`downcast_ref::<UserOpMiddlewareError<M>>()`. -/
inductive AnyhowError where
  | mw (e : UserOpMiddlewareError)
  | builder (e : UserOpBuilderError)
  | transport
  | message (s : String)
deriving DecidableEq, Repr

/-- `build_uo` (src/uo_builder.rs:381-449): checks the fields of the partial
one by one, in the source's order, returning `MissingUserOperationField` for
the first absent one; when every field is present it assembles the
`UserOperation` (the `UserOperation::from` conversion unwraps each field). -/
def build_uo (uo : UserOperationPartial) : Except UserOpBuilderError UserOperation :=
  match uo.sender with
  | none => .error (.missingUserOperationField "sender")
  | some sender =>
  match uo.nonce with
  | none => .error (.missingUserOperationField "nonce")
  | some nonce =>
  match uo.init_code with
  | none => .error (.missingUserOperationField "init_code")
  | some init_code =>
  match uo.call_data with
  | none => .error (.missingUserOperationField "call_data")
  | some call_data =>
  match uo.call_gas_limit with
  | none => .error (.missingUserOperationField "call_gas_limit")
  | some call_gas_limit =>
  match uo.pre_verification_gas with
  | none => .error (.missingUserOperationField "pre_verification_gas")
  | some pre_verification_gas =>
  match uo.verification_gas_limit with
  | none => .error (.missingUserOperationField "verification_gas_limit")
  | some verification_gas_limit =>
  match uo.max_priority_fee_per_gas with
  | none => .error (.missingUserOperationField "max_priority_fee_per_gas")
  | some max_priority_fee_per_gas =>
  match uo.max_fee_per_gas with
  | none => .error (.missingUserOperationField "max_fee_per_gas")
  | some max_fee_per_gas =>
  match uo.paymaster_and_data with
  | none => .error (.missingUserOperationField "paymaster_and_data")
  | some paymaster_and_data =>
  match uo.signature with
  | none => .error (.missingUserOperationField "signature")
  | some signature =>
    .ok { sender, nonce, init_code, call_data, call_gas_limit
          verification_gas_limit, pre_verification_gas, max_fee_per_gas
          max_priority_fee_per_gas, paymaster_and_data, signature }

/-- Whether every field of the partial, signature included, is set. -/
def allFieldsSet (uo : UserOperationPartial) : Bool :=
  uo.sender.isSome && uo.nonce.isSome && uo.init_code.isSome &&
  uo.call_data.isSome && uo.call_gas_limit.isSome &&
  uo.verification_gas_limit.isSome && uo.pre_verification_gas.isSome &&
  uo.max_fee_per_gas.isSome && uo.max_priority_fee_per_gas.isSome &&
  uo.paymaster_and_data.isSome && uo.signature.isSome

/-- Whether the ten pre-signature fields of the partial are set (the
signature may still be absent). -/
def tenPreSignatureFieldsSet (uo : UserOperationPartial) : Bool :=
  uo.sender.isSome && uo.nonce.isSome && uo.init_code.isSome &&
  uo.call_data.isSome && uo.call_gas_limit.isSome &&
  uo.verification_gas_limit.isSome && uo.pre_verification_gas.isSome &&
  uo.max_fee_per_gas.isSome && uo.max_priority_fee_per_gas.isSome &&
  uo.paymaster_and_data.isSome

/-- The first unset field name in the order in which `build_uo` actually
checks the fields (src/uo_builder.rs:382-444). -/
def firstUnsetField (uo : UserOperationPartial) : Option String :=
  if uo.sender.isNone then some "sender"
  else if uo.nonce.isNone then some "nonce"
  else if uo.init_code.isNone then some "init_code"
  else if uo.call_data.isNone then some "call_data"
  else if uo.call_gas_limit.isNone then some "call_gas_limit"
  else if uo.pre_verification_gas.isNone then some "pre_verification_gas"
  else if uo.verification_gas_limit.isNone then some "verification_gas_limit"
  else if uo.max_priority_fee_per_gas.isNone then some "max_priority_fee_per_gas"
  else if uo.max_fee_per_gas.isNone then some "max_fee_per_gas"
  else if uo.paymaster_and_data.isNone then some "paymaster_and_data"
  else if uo.signature.isNone then some "signature"
  else none

/-- The first unset field name in the canonical field order of the data
model, as the spec words it (spec §3): sender, nonce, init_code, call_data,
call_gas_limit, verification_gas_limit, pre_verification_gas,
max_fee_per_gas, max_priority_fee_per_gas, paymaster_and_data, signature.
Written from the spec's words, to be compared with `firstUnsetField`. -/
def canonicalFirstUnsetField (uo : UserOperationPartial) : Option String :=
  if uo.sender.isNone then some "sender"
  else if uo.nonce.isNone then some "nonce"
  else if uo.init_code.isNone then some "init_code"
  else if uo.call_data.isNone then some "call_data"
  else if uo.call_gas_limit.isNone then some "call_gas_limit"
  else if uo.verification_gas_limit.isNone then some "verification_gas_limit"
  else if uo.pre_verification_gas.isNone then some "pre_verification_gas"
  else if uo.max_fee_per_gas.isNone then some "max_fee_per_gas"
  else if uo.max_priority_fee_per_gas.isNone then some "max_priority_fee_per_gas"
  else if uo.paymaster_and_data.isNone then some "paymaster_and_data"
  else if uo.signature.isNone then some "signature"
  else none

/-! ### Constants (src/consts.rs) -/

/-- `DUMMY_SIGNATURE` (src/consts.rs:6), verbatim. -/
def DUMMY_SIGNATURE : String :=
  "0xfffffffffffffffffffffffffffffff0000000000000000000000000000000007aaaaaaaaaaaaaaaaaaaaaaaaaaaaaaaaaaaaaaaaaaaaaaaaaaaaaaaaaaaaaaa1c"

/-- `SIMPLE_ACCOUNT_FACTORY` (src/consts.rs:13) as a numeric address. -/
def SIMPLE_ACCOUNT_FACTORY : Address := 0x9406Cc6185a346906296840746125a0E44976454

/-- `GETH_SIMPLE_ACCOUNT_FACTORY` (src/consts.rs:15) as a numeric address. -/
def GETH_SIMPLE_ACCOUNT_FACTORY : Address := 0xe7f1725e7734ce288f8367e1bb143e90bb3f0512

/-- Rust `str::as_bytes().to_vec()` for an ASCII string: the UTF-8 byte
values of its characters. -/
def strAsBytes (s : String) : Bytes := s.data.map Char.toNat

/-- The byte string the middleware attaches as placeholder signature:
`DUMMY_SIGNATURE.as_bytes().to_vec()` (src/userop_middleware.rs:336, 569,
781) — the ASCII bytes of the constant, not its hex decoding. -/
def dummySignatureBytes : Bytes := strAsBytes DUMMY_SIGNATURE

/-- Value of a hexadecimal digit character. -/
def hexVal (c : Char) : Option Nat :=
  if c.isDigit then some (c.toNat - 48)
  else if 'a' ≤ c ∧ c ≤ 'f' then some (c.toNat - 87)
  else if 'A' ≤ c ∧ c ≤ 'F' then some (c.toNat - 55)
  else none

/-- Decode an even-length hexadecimal character list into bytes. -/
def hexDecodePairs : List Char → Option Bytes
  | [] => some []
  | [_] => none
  | c1 :: c2 :: rest =>
    match hexVal c1, hexVal c2, hexDecodePairs rest with
    | some hi, some lo, some bs => some ((16 * hi + lo) :: bs)
    | _, _, _ => none

/-- Hex-decode a string, tolerating a leading `0x`. -/
def hexDecodeStr (s : String) : Option Bytes :=
  let cs := s.data
  hexDecodePairs (if cs.take 2 = ['0', 'x'] then cs.drop 2 else cs)

/-! ### Decimal rendering and reading, for the bundler's error messages -/

/-- The character of a decimal digit. -/
def digitChar (d : Nat) : Char := Char.ofNat (48 + d)

/-- Decimal digit characters of a number, most significant first. -/
def natDigits (n : Nat) : List Char :=
  if _h : n < 10 then [digitChar n]
  else natDigits (n / 10) ++ [digitChar (n % 10)]
termination_by n
decreasing_by exact Nat.div_lt_self (by omega) (by omega)

/-- Read a decimal digit run back into a number (the semantics of
`str::parse` on a digit string, before the `u64` range check). -/
def readNat (cs : List Char) : Nat :=
  cs.foldl (fun a c => a * 10 + (c.toNat - 48)) 0

/-- `str::parse::<u64>()` on a digit run: fails (and the source's
`.unwrap()` panics) when the value does not fit in a `u64`. -/
def parseU64 (cs : List Char) : Option Nat :=
  if readNat cs < U64_LIMIT then some (readNat cs) else none

/-! ### The fixed patterns of `handle_response` (src/userop_middleware.rs:247-274)

The Rust code searches the error message with two regular expressions and a
substring test. The two regexes both have the shape
`<literal> (\d+) <literal> (\d+)`; on such a pattern, leftmost matching with
greedy digit runs is equivalent to scanning start positions left to right
and, at each position, reading the first literal, a maximal non-empty digit
run, the second literal, and a maximal non-empty digit run. -/

/-- Match a literal at the head of the input, returning the rest. -/
def matchLit : List Char → List Char → Option (List Char)
  | [], s => some s
  | _ :: _, [] => none
  | l :: ls, c :: cs => if c = l then matchLit ls cs else none

/-- Match a maximal non-empty digit run at the head of the input. -/
def matchDigits (s : List Char) : Option (List Char × List Char) :=
  let ds := s.takeWhile Char.isDigit
  if ds.isEmpty then none else some (ds, s.drop ds.length)

/-- Match `lit1 (\d+) lit2 (\d+)` at the head of the input, returning the
two captured digit runs. -/
def matchTwoNumPattern (lit1 lit2 s : List Char) : Option (List Char × List Char) :=
  (matchLit lit1 s).bind fun s1 =>
  (matchDigits s1).bind fun d1 =>
  (matchLit lit2 d1.2).bind fun s3 =>
  (matchDigits s3).map fun d2 => (d1.1, d2.1)

/-- Leftmost match of `lit1 (\d+) lit2 (\d+)` anywhere in the input
(`Regex::captures`; `lit1` is non-empty for both patterns, so the
end-of-input position can never match). -/
def findFirstMatch (lit1 lit2 : List Char) : List Char → Option (List Char × List Char)
  | [] => none
  | c :: cs =>
    match matchTwoNumPattern lit1 lit2 (c :: cs) with
    | some r => some r
    | none => findFirstMatch lit1 lit2 cs

/-- Substring containment (`str::contains` with a literal pattern). -/
def containsSubstring (pat : List Char) : List Char → Bool
  | [] => pat.isEmpty
  | c :: cs => pat.isPrefixOf (c :: cs) || containsSubstring pat cs

/-- First literal of the call-gas-limit regex (src/userop_middleware.rs:248). -/
def callGasLit1 : List Char := "Call gas limit ".data

/-- Second literal of the call-gas-limit regex. -/
def callGasLit2 : List Char := " is lower than call gas estimation ".data

/-- First literal of the pre-verification-gas regex (src/userop_middleware.rs:259). -/
def preVerLit1 : List Char := "Pre-verification gas ".data

/-- Second literal of the pre-verification-gas regex. -/
def preVerLit2 : List Char := " is lower than calculated pre-verification gas ".data

/-- The verification-gas substring (src/userop_middleware.rs:270). -/
def aa40Lit : List Char := "AA40 over verificationGasLimit".data

/-- A full message of the call-gas-limit shape with numbers `n`, `m`. -/
def callGasMsg (n m : Nat) : List Char :=
  callGasLit1 ++ (natDigits n ++ (callGasLit2 ++ natDigits m))

/-- A full message of the pre-verification-gas shape with numbers `n`, `m`. -/
def preVerMsg (n m : Nat) : List Char :=
  preVerLit1 ++ (natDigits n ++ (preVerLit2 ++ natDigits m))

/-- Outcome of the error-message classification in `handle_response`
(src/userop_middleware.rs:247-276). `parsePanic` models the `.unwrap()`
panic when a captured digit run does not fit in a `u64`. -/
inductive ClassifiedError where
  | callGasLimitError (limit estimation : Nat)
  | preVerificationGasError (preVerificationGas calculated : Nat)
  | verificationGasLimitError
  | unknownError
  | parsePanic
deriving DecidableEq, Repr

/-- The error-message classification of `handle_response`
(src/userop_middleware.rs:247-276): call-gas regex first, then
pre-verification regex, then the AA40 substring test, else `UnknownError`. -/
def classifyErrorMessage (msg : List Char) : ClassifiedError :=
  match findFirstMatch callGasLit1 callGasLit2 msg with
  | some d =>
    match parseU64 d.1, parseU64 d.2 with
    | some limit, some estimation => .callGasLimitError limit estimation
    | _, _ => .parsePanic
  | none =>
  match findFirstMatch preVerLit1 preVerLit2 msg with
  | some d =>
    match parseU64 d.1, parseU64 d.2 with
    | some p, some c => .preVerificationGasError p c
    | _, _ => .parsePanic
  | none =>
    if containsSubstring aa40Lit msg then .verificationGasLimitError
    else .unknownError

/-! ### JSON-RPC envelopes and `handle_response` -/

/-- `Response<R>` (src/types.rs:36-41): the success envelope; the `result`
field is NOT optional. -/
structure RpcResponse (R : Type) where
  jsonrpc : List Char
  id : Nat
  result : R
deriving DecidableEq, Repr

/-- `JsonRpcError` (src/types.rs:50-54). -/
structure JsonRpcError where
  code : Int
  message : List Char
deriving DecidableEq, Repr

/-- `ErrorResponse` (src/types.rs:43-48). -/
structure ErrorResponse where
  jsonrpc : List Char
  id : Nat
  error : JsonRpcError
deriving DecidableEq, Repr

/-- An HTTP body from the bundler, abstracted by the outcomes of the two
serde decodes `handle_response` attempts on its text: as `Response<R>` and
as `ErrorResponse` (the decoders themselves are the external serde_json
collaborator). -/
structure BundlerHttpBody (R : Type) where
  decodeSuccess : Option (RpcResponse R)
  decodeError : Option ErrorResponse
deriving DecidableEq, Repr

/-- Result of `handle_response`: a success envelope, an `anyhow` error, or a
process panic. -/
inductive HandleResult (R : Type) where
  | success (resp : RpcResponse R)
  | failure (e : AnyhowError)
  | panic
deriving DecidableEq, Repr

/-- Lift the message classification into the error `handle_response`
returns for an error envelope. -/
def classifiedToHandleResult {R : Type} : ClassifiedError → HandleResult R
  | .callGasLimitError l e => .failure (.mw (.callGasLimitError l e))
  | .preVerificationGasError p c => .failure (.mw (.preVerificationGasError p c))
  | .verificationGasLimitError => .failure (.mw .verificationGasLimitError)
  | .unknownError => .failure (.mw .unknownError)
  | .parsePanic => .panic

/-- `handle_response` (src/userop_middleware.rs:229-279): decode the body as
a success envelope; on failure decode it as an error envelope (a second
failure propagates the serde error); classify the error message. -/
def handle_response {R : Type} (body : BundlerHttpBody R) : HandleResult R :=
  match body.decodeSuccess with
  | some resp => .success resp
  | none =>
    match body.decodeError with
    | none => .failure .transport
    | some er => classifiedToHandleResult (classifyErrorMessage er.error.message)

/-! ### The gas-retry loop of `call` and `send_eth`
(src/userop_middleware.rs:350-393 and 583-626)

Both loops are iterated over three mutable gas variables; each iteration
overwrites the builder's gas fields from them, rebuilds, re-signs, sends,
and reacts to the classified send outcome. The loops differ only in the
verification-gas increment (10000 in `call`, 1000 in `send_eth`). -/

/-- `estimate_user_operation_gas` result payload (src/types.rs:28-34). -/
structure EstimateResult where
  pre_verification_gas : Nat
  verification_gas_limit : Nat
  call_gas_limit : Nat
deriving DecidableEq, Repr

/-- The three mutable gas variables of the retry loop. -/
structure GasState where
  pre_verification_gas : Nat
  call_gas_limit : Nat
  verification_gas_limit : Nat
deriving DecidableEq, Repr

/-- Initial loop state from the estimate (src/userop_middleware.rs:342-348
and 575-581): the estimate values, with 10000 slack saturating-added to the
verification gas limit. -/
def initGas (est : EstimateResult) : GasState :=
  { pre_verification_gas := est.pre_verification_gas
    call_gas_limit := est.call_gas_limit
    verification_gas_limit := satAdd est.verification_gas_limit 10000 }

/-- The classified outcome of one `send_user_operation` call, as seen by the
loop body. -/
abbrev SendResp := Except AnyhowError Nat

/-- How the retry loop ends. `pending` means the supplied response prefix is
exhausted while the loop is still running (it would block awaiting the next
send). -/
inductive RetryOutcome where
  | sent (hash : Nat) (final : GasState)
  | unknownError
  | pending (g : GasState)
deriving DecidableEq, Repr

/-- The retry loop body (src/userop_middleware.rs:350-393, 583-626), driven
by the list of classified send outcomes. On a gas error the matching
variable is updated and the loop continues; on any other error that
downcasts to `UserOpMiddlewareError` the loop returns `UnknownError`; on an
error that does NOT downcast (transport failure, serde failure, ad-hoc
message) the `if let` body is skipped and the loop continues with the state
unchanged. -/
def retryLoop (incr : Nat) (g : GasState) : List SendResp → RetryOutcome
  | [] => .pending g
  | resp :: rest =>
    match resp with
    | .ok h => .sent h g
    | .error (.mw (.callGasLimitError _limit estimation)) =>
      retryLoop incr { g with call_gas_limit := estimation } rest
    | .error (.mw (.preVerificationGasError _pre calculated)) =>
      retryLoop incr { g with pre_verification_gas := calculated } rest
    | .error (.mw .verificationGasLimitError) =>
      retryLoop incr
        { g with verification_gas_limit := g.verification_gas_limit + incr } rest
    | .error (.mw _) => .unknownError
    | .error (.builder _) => retryLoop incr g rest
    | .error .transport => retryLoop incr g rest
    | .error (.message _) => retryLoop incr g rest

/-- The gas triples carried by the successive UserOperations the loop
submits: one entry per completed send, in order. -/
def submittedGas (incr : Nat) (g : GasState) : List SendResp → List GasState
  | [] => []
  | resp :: rest =>
    g :: match resp with
    | .ok _ => []
    | .error (.mw (.callGasLimitError _limit estimation)) =>
      submittedGas incr { g with call_gas_limit := estimation } rest
    | .error (.mw (.preVerificationGasError _pre calculated)) =>
      submittedGas incr { g with pre_verification_gas := calculated } rest
    | .error (.mw .verificationGasLimitError) =>
      submittedGas incr
        { g with verification_gas_limit := g.verification_gas_limit + incr } rest
    | .error (.mw _) => []
    | .error (.builder _) => submittedGas incr g rest
    | .error .transport => submittedGas incr g rest
    | .error (.message _) => submittedGas incr g rest

/-- Componentwise order on gas states. -/
def gasLE (a b : GasState) : Prop :=
  a.pre_verification_gas ≤ b.pre_verification_gas ∧
  a.call_gas_limit ≤ b.call_gas_limit ∧
  a.verification_gas_limit ≤ b.verification_gas_limit

instance : DecidableRel gasLE := fun a b =>
  inferInstanceAs (Decidable (a.pre_verification_gas ≤ b.pre_verification_gas ∧
    a.call_gas_limit ≤ b.call_gas_limit ∧
    a.verification_gas_limit ≤ b.verification_gas_limit))

/-- Whether every numeric hint in the bundler's gas-error responses is at
least the gas value submitted at that iteration — what the wording of the
bundler's error messages promises ("N is lower than M" with N the
submitted value). -/
def hintsFaithful (incr : Nat) : GasState → List SendResp → Bool
  | _, [] => true
  | g, resp :: rest =>
    match resp with
    | .ok _ => true
    | .error (.mw (.callGasLimitError _limit estimation)) =>
      decide (g.call_gas_limit ≤ estimation) &&
        hintsFaithful incr { g with call_gas_limit := estimation } rest
    | .error (.mw (.preVerificationGasError _pre calculated)) =>
      decide (g.pre_verification_gas ≤ calculated) &&
        hintsFaithful incr { g with pre_verification_gas := calculated } rest
    | .error (.mw .verificationGasLimitError) =>
      hintsFaithful incr
        { g with verification_gas_limit := g.verification_gas_limit + incr } rest
    | .error (.mw _) => true
    | .error (.builder _) => hintsFaithful incr g rest
    | .error .transport => hintsFaithful incr g rest
    | .error (.message _) => hintsFaithful incr g rest

/-! ### The builder object and the wallet registry -/

/-- `WalletFactoryRegistry::from_str` (src/types.rs:94-107): resolves a
wallet name to the factory address; `WalletRegistry::from_str`
(src/types.rs:79-87) accepts exactly the same two names. -/
def walletFactoryFromStr (s : String) : Except String Address :=
  if s = "simple-account" then .ok SIMPLE_ACCOUNT_FACTORY
  else if s = "simple-account-test" then .ok GETH_SIMPLE_ACCOUNT_FACTORY
  else .error "wallet currently not supported"

/-- `UserOperationBuilder` (src/uo_builder.rs:15-35), with the provider and
the two dynamic contract objects abstracted away (their behaviour lives in
`Env`). -/
structure UserOperationBuilder where
  factory_address : Address
  scw_address : Option Address
  signer_address : Address
  salt : Option Nat
  uo : UserOperationPartial
  uo_hash : Option Nat
deriving DecidableEq, Repr

/-- `UserOperationBuilder::new` (src/uo_builder.rs:68-104): resolve the
wallet name (`match_wallet`), install the empty partial. -/
def UserOperationBuilder.new (eoa_wallet_address : Address) (wallet_name : String)
    (scw_address : Option Address) (salt : Option Nat) :
    Except String UserOperationBuilder :=
  match walletFactoryFromStr wallet_name with
  | .error e => .error e
  | .ok factory_address =>
    .ok { factory_address, scw_address, signer_address := eoa_wallet_address
          salt, uo := emptyPartial, uo_hash := none }

/-- An on-chain read-only query issued by the builder. -/
inductive ChainQuery where
  | generateAddressCall (owner : Address) (salt : Nat)
deriving DecidableEq, Repr

/-- The external collaborators of the middleware and the builder, as
response functions: the factory `getAddress` eth_call, `eth_getCode`,
`eth_getTransactionCount`, the ABI encoders, the signer, the EIP-1559 fee
oracle, the pre-fund transfer outcome, and the classified outcomes of the
bundler estimate and send calls. -/
structure Env where
  generateAddress : Address → Nat → Address
  getCode : Address → Bytes
  getTransactionCount : Address → Nat
  createAccountCalldata : Address → Nat → Bytes
  executeCalldata : Address → Nat → Bytes → Bytes
  signUo : UserOperation → Bytes
  fees : Nat × Nat
  preFundOk : Bool
  estimateResp : Except AnyhowError EstimateResult
  sendResp : Except AnyhowError Nat

/-- `set_scw_address` (src/uo_builder.rs:198-209). `none` models the Rust
panic from `self.salt.expect("salt is None")`. The factory
`generate_address(...).call()` query is issued unconditionally — whether or
not `scw_address` is already set — and its result overwrites `scw_address`;
the returned trace records the query. -/
def set_scw_address (env : Env) (b : UserOperationBuilder) :
    Option (Address × UserOperationBuilder × List ChainQuery) :=
  match b.salt with
  | none => none
  | some salt =>
    let scw_address := env.generateAddress b.signer_address salt
    some (scw_address, { b with scw_address := some scw_address },
          [.generateAddressCall b.signer_address salt])

/-- The 20 big-endian bytes of an address (`Address::as_bytes`). -/
def addressBytes (a : Address) : Bytes :=
  (List.range 20).map fun i => a / 256 ^ (19 - i) % 256

/-- A JSON-RPC request issued to the bundler endpoint. -/
inductive BundlerRequest where
  | estimateUserOperationGas (uo : UserOperation)
  | sendUserOperation (uo : UserOperation)
deriving DecidableEq, Repr

/-- Number of `eth_sendUserOperation` requests in a trace. -/
def countSendRequests (l : List BundlerRequest) : Nat :=
  (l.filter fun r =>
    match r with
    | .sendUserOperation _ => true
    | _ => false).length

/-- `wallet.sign_uo` (external silius signer): the same operation with the
signature replaced by the signer's output. -/
def signUoWith (env : Env) (uo : UserOperation) : UserOperation :=
  { uo with signature := env.signUo uo }

/-- `create_scw_deployment_uo` (src/userop_middleware.rs:728-784): build a
builder with the given salt, derive the counter-factual address, reject if
code is already deployed there, then fill the partial: nonce from the
provider, `init_code = factory_address || createAccount(owner, salt)`,
`call_data = execute(0x0, 0, empty)`, placeholder gas values and the dummy
signature. `none` models a panic (unreachable here: the salt is set). -/
def create_scw_deployment_uo (env : Env) (signer : Address) (wallet_name : String)
    (salt : Nat) : Option (Except AnyhowError UserOperationBuilder) :=
  match UserOperationBuilder.new signer wallet_name none (some salt) with
  | .error s => some (.error (.message s))
  | .ok b0 =>
    match set_scw_address env b0 with
    | none => none
    | some (scw_address, b1, _queries) =>
      let signer_address := b1.signer_address
      if (env.getCode scw_address).isEmpty then
        let nonce := env.getTransactionCount scw_address
        let init_code := addressBytes b1.factory_address ++
          env.createAccountCalldata signer_address salt
        let execution_calldata := env.executeCalldata 0 0 []
        some (.ok { b1 with uo :=
          { sender := some scw_address, nonce := some nonce
            init_code := some init_code, call_data := some execution_calldata
            call_gas_limit := some 1, pre_verification_gas := some 1
            verification_gas_limit := some 1000000
            max_fee_per_gas := some 1, max_priority_fee_per_gas := some 1
            paymaster_and_data := some [], signature := some dummySignatureBytes } })
      else
        some (.error (.mw (.userOpBuilderError .smartContractWalletHasBeenDeployed)))

/-- `deploy_scw` (src/userop_middleware.rs:644-703): create the deployment
builder, pre-fund the counter-factual address with an ETH transfer, build
and sign, estimate once, overwrite the gas fields
(`pre_verification_gas + 1000` saturating, `call_gas_limit × 2` saturating,
`verification_gas_limit` as estimated, oracle fees), rebuild, re-sign, send
ONCE — any send error propagates through `?`; there is no retry loop here.
Returns the outcome together with the trace of bundler requests issued.
`none` models a panic. -/
def deploy_scw (env : Env) (signer : Address) (wallet_name : String)
    (pre_fund salt : Nat) :
    Option (Except AnyhowError (Nat × Address) × List BundlerRequest) :=
  match create_scw_deployment_uo env signer wallet_name salt with
  | none => none
  | some (.error e) => some (.error e, [])
  | some (.ok b) =>
    match b.scw_address with
    | none => none
    | some scw_address =>
      if env.preFundOk then
        match build_uo b.uo with
        | .error e => some (.error (.builder e), [])
        | .ok uo =>
          let signed := signUoWith env uo
          match env.estimateResp with
          | .error e => some (.error e, [.estimateUserOperationGas signed])
          | .ok est =>
            let gas_price := env.fees.1
            let priority_fee := env.fees.2
            let uo2p := { b.uo with
              pre_verification_gas := some (satAdd est.pre_verification_gas 1000)
              call_gas_limit := some (satMul est.call_gas_limit 2)
              verification_gas_limit := some est.verification_gas_limit
              max_fee_per_gas := some gas_price
              max_priority_fee_per_gas := some priority_fee }
            match build_uo uo2p with
            | .error e => some (.error (.builder e), [.estimateUserOperationGas signed])
            | .ok uo2 =>
              let signed2 := signUoWith env uo2
              match env.sendResp with
              | .ok h =>
                some (.ok (h, scw_address),
                  [.estimateUserOperationGas signed, .sendUserOperation signed2])
              | .error e =>
                some (.error e,
                  [.estimateUserOperationGas signed, .sendUserOperation signed2])
      else
        some (.error .transport, [])

/-- The `UserOperationPartial` `call` fills before the first estimate
(src/userop_middleware.rs:325-337): empty init code, placeholder gas
values, the oracle priority fee, and the dummy signature. -/
def callInitialPartial (scw : Address) (nonce : Nat) (execution_calldata : Bytes)
    (priority_fee : Nat) : UserOperationPartial :=
  { sender := some scw, nonce := some nonce, init_code := some []
    call_data := some execution_calldata, call_gas_limit := some 1
    pre_verification_gas := some 1, verification_gas_limit := some 1000000
    max_fee_per_gas := some 1, max_priority_fee_per_gas := some priority_fee
    paymaster_and_data := some [], signature := some dummySignatureBytes }

/-- The `UserOperationPartial` `send_eth` fills before the first estimate
(src/userop_middleware.rs:558-570) — field for field the same shape as in
`call`. -/
def sendEthInitialPartial (scw : Address) (nonce : Nat) (execution_calldata : Bytes)
    (priority_fee : Nat) : UserOperationPartial :=
  { sender := some scw, nonce := some nonce, init_code := some []
    call_data := some execution_calldata, call_gas_limit := some 1
    pre_verification_gas := some 1, verification_gas_limit := some 1000000
    max_fee_per_gas := some 1, max_priority_fee_per_gas := some priority_fee
    paymaster_and_data := some [], signature := some dummySignatureBytes }

/-! ### `get_user_operation_receipt` (src/userop_middleware.rs:180-199) -/

/-- The bundler's wire-level `result` for `eth_getUserOperationReceipt`:
`null` until the operation is mined, a receipt object afterwards (receipt
payload abstracted). -/
inductive ReceiptWireResult where
  | nullResult
  | receipt (r : Nat)
deriving DecidableEq, Repr

/-- Serde decoding of `Response<UserOperationReceipt>` (src/types.rs:36-41)
from a well-formed reply envelope: the `result` field has the non-optional
struct type `UserOperationReceipt`, whose derived deserializer rejects JSON
`null`, so a null result is a decode error (propagated as an anyhow
transport-level error by the `?` on `.json()`). -/
def decodeReceiptResponse (jsonrpc : List Char) (id : Nat) :
    ReceiptWireResult → Except AnyhowError (RpcResponse Nat)
  | .nullResult => .error .transport
  | .receipt r => .ok { jsonrpc, id, result := r }

/-- `get_user_operation_receipt` (src/userop_middleware.rs:180-199): decode
the reply as `Response<UserOperationReceipt>` and return its `result`
field; there is no null case in the return type. -/
def get_user_operation_receipt (wire : ReceiptWireResult) : Except AnyhowError Nat :=
  match decodeReceiptResponse "2.0".data 1 wire with
  | .error e => .error e
  | .ok resp => .ok resp.result

/-! ### Concrete inputs used by witnesses and counterexamples -/

/-- A concrete environment: every on-chain answer is fixed, with the given
code, estimate outcome and send outcome. -/
def mkEnv (code : Bytes) (estimate : Except AnyhowError EstimateResult)
    (send : Except AnyhowError Nat) : Env :=
  { generateAddress := fun owner salt => owner + salt + 100
    getCode := fun _ => code
    getTransactionCount := fun _ => 0
    createAccountCalldata := fun _ _ => [1, 2]
    executeCalldata := fun _ _ _ => [3, 4]
    signUo := fun _ => [9]
    fees := (7, 5)
    preFundOk := true
    estimateResp := estimate
    sendResp := send }

/-- A partial with every field set except the signature. -/
def partialNoSig : UserOperationPartial :=
  { sender := some 1, nonce := some 0, init_code := some []
    call_data := some [], call_gas_limit := some 1
    verification_gas_limit := some 2, pre_verification_gas := some 3
    max_fee_per_gas := some 4, max_priority_fee_per_gas := some 5
    paymaster_and_data := some [], signature := none }

/-- A partial in which exactly the two verification-gas fields are unset. -/
def partialGasUnset : UserOperationPartial :=
  { sender := some 1, nonce := some 0, init_code := some []
    call_data := some [], call_gas_limit := some 1
    verification_gas_limit := none, pre_verification_gas := none
    max_fee_per_gas := some 4, max_priority_fee_per_gas := some 5
    paymaster_and_data := some [], signature := some [] }

/-- A builder whose salt is unset. -/
def builderNoSalt : UserOperationBuilder :=
  { factory_address := SIMPLE_ACCOUNT_FACTORY, scw_address := none
    signer_address := 3, salt := none, uo := emptyPartial, uo_hash := none }

/-- A builder with a salt set. -/
def builderSalted : UserOperationBuilder :=
  { builderNoSalt with salt := some 2 }

/-- A builder whose smart-contract-wallet address is already set. -/
def builderScwSet : UserOperationBuilder :=
  { builderNoSalt with scw_address := some 5, salt := some 2 }

/-- An environment whose bundler answers the deployment send with a
call-gas-limit error. -/
def envSendCallGasError : Env :=
  mkEnv [] (.ok ⟨21000, 300000, 30000⟩) (.error (.mw (.callGasLimitError 1 999)))

/-- A body that decodes as a success envelope. -/
def bodySuccess : BundlerHttpBody Nat :=
  { decodeSuccess := some ⟨"2.0".data, 1, 42⟩, decodeError := none }

/-- A body that decodes only as an error envelope, with an AA40 message. -/
def bodyAa40 : BundlerHttpBody Nat :=
  { decodeSuccess := none
    decodeError := some ⟨"2.0".data, 1, ⟨-32602, "AA40 over verificationGasLimit".data⟩⟩ }

/-- A body that decodes as neither envelope. -/
def bodyUndecodable : BundlerHttpBody Nat :=
  { decodeSuccess := none, decodeError := none }

/-! ### Helper lemmas about digit runs and pattern matching -/

theorem append_ne_nil {α : Type} (l r : List α) (h : l ≠ []) : l ++ r ≠ [] := by
  cases l with
  | nil => exact absurd rfl h
  | cons a t => simp

theorem digitChar_toNat {d : Nat} (h : d < 10) : (digitChar d).toNat = 48 + d := by
  interval_cases d <;> decide

theorem digitChar_isDigit {d : Nat} (h : d < 10) : (digitChar d).isDigit = true := by
  interval_cases d <;> decide

theorem isDigit_ne_of_not_digit {c d : Char} (hc : c.isDigit = true)
    (hd : d.isDigit = false) : c ≠ d := by
  intro h
  rw [h, hd] at hc
  exact Bool.false_ne_true hc

theorem natDigits_ne_nil (n : Nat) : natDigits n ≠ [] := by
  rw [natDigits]
  split
  · simp
  · simp

theorem natDigits_all_digit (n : Nat) : ∀ c ∈ natDigits n, c.isDigit = true := by
  induction n using Nat.strong_induction_on with
  | _ n ih =>
    rw [natDigits]
    split
    · intro c hc
      rw [List.mem_singleton] at hc
      subst hc
      exact digitChar_isDigit (by omega)
    · intro c hc
      rcases List.mem_append.mp hc with h | h
      · exact ih (n / 10) (Nat.div_lt_self (by omega) (by omega)) c h
      · rw [List.mem_singleton] at h
        subst h
        exact digitChar_isDigit (Nat.mod_lt _ (by omega))

theorem foldl_natDigits (n a : Nat) :
    (natDigits n).foldl (fun x c => x * 10 + (c.toNat - 48)) a =
      a * 10 ^ (natDigits n).length + n := by
  induction n using Nat.strong_induction_on generalizing a with
  | _ n ih =>
    rw [natDigits]
    split
    · rename_i h
      simp [List.foldl, digitChar_toNat h]
    · rename_i h
      rw [List.foldl_append, ih (n / 10) (Nat.div_lt_self (by omega) (by omega)) a]
      simp [List.foldl, digitChar_toNat (Nat.mod_lt n (by omega))]
      rw [pow_succ, Nat.add_mul, Nat.mul_assoc]
      omega

theorem readNat_natDigits (n : Nat) : readNat (natDigits n) = n := by
  unfold readNat
  rw [foldl_natDigits]
  simp

theorem parseU64_natDigits {n : Nat} (h : n < U64_LIMIT) :
    parseU64 (natDigits n) = some n := by
  unfold parseU64
  rw [readNat_natDigits, if_pos h]

theorem matchLit_append (l s : List Char) : matchLit l (l ++ s) = some s := by
  induction l with
  | nil => rfl
  | cons c cs ih => simp [matchLit, ih]

theorem takeWhile_all_append (p : Char → Bool) (xs ys : List Char)
    (h : ∀ c ∈ xs, p c = true) :
    (xs ++ ys).takeWhile p = xs ++ ys.takeWhile p := by
  induction xs with
  | nil => simp
  | cons x xs ih =>
    have hx : p x = true := h x (List.mem_cons_self x xs)
    simp only [List.cons_append, List.takeWhile_cons, hx, if_true]
    rw [ih fun c hc => h c (List.mem_cons_of_mem x hc)]

theorem matchDigits_digits_append (n : Nat) (ys : List Char)
    (hys : ys.takeWhile Char.isDigit = []) :
    matchDigits (natDigits n ++ ys) = some (natDigits n, ys) := by
  unfold matchDigits
  rw [takeWhile_all_append Char.isDigit _ _ (natDigits_all_digit n), hys,
    List.append_nil]
  simp only [List.isEmpty_iff]
  rw [if_neg (natDigits_ne_nil n), List.drop_left]

theorem matchTwoNumPattern_exact (lit1 lit2 : List Char) (c2 : Char) (t2 : List Char)
    (hl2 : lit2 = c2 :: t2) (hc2 : c2.isDigit = false) (n m : Nat) :
    matchTwoNumPattern lit1 lit2
      (lit1 ++ (natDigits n ++ (lit2 ++ natDigits m))) =
      some (natDigits n, natDigits m) := by
  have h1 : matchLit lit1 (lit1 ++ (natDigits n ++ (lit2 ++ natDigits m))) =
      some (natDigits n ++ (lit2 ++ natDigits m)) := matchLit_append _ _
  have h2 : matchDigits (natDigits n ++ (lit2 ++ natDigits m)) =
      some (natDigits n, lit2 ++ natDigits m) :=
    matchDigits_digits_append _ _ (by rw [hl2]; simp [List.takeWhile_cons, hc2])
  have h3 : matchLit lit2 (lit2 ++ natDigits m) = some (natDigits m) :=
    matchLit_append _ _
  have h4 : matchDigits (natDigits m) = some (natDigits m, []) := by
    have h0 := matchDigits_digits_append m [] (by simp)
    rwa [List.append_nil] at h0
  unfold matchTwoNumPattern
  simp [h1, h2, h3, h4]

theorem findFirstMatch_here (lit1 lit2 s : List Char) (r : List Char × List Char)
    (hs : s ≠ []) (h : matchTwoNumPattern lit1 lit2 s = some r) :
    findFirstMatch lit1 lit2 s = some r := by
  match s with
  | [] => exact absurd rfl hs
  | c :: cs => rw [findFirstMatch, h]

theorem findFirstMatch_none_of_head_absent (d : Char) (l1t l2 s : List Char)
    (h : ∀ c ∈ s, c ≠ d) : findFirstMatch (d :: l1t) l2 s = none := by
  induction s with
  | nil => rfl
  | cons c cs ih =>
    have hcd : c ≠ d := h c (List.mem_cons_self c cs)
    have hmatch : matchTwoNumPattern (d :: l1t) l2 (c :: cs) = none := by
      unfold matchTwoNumPattern
      simp [matchLit, hcd]
    rw [findFirstMatch, hmatch]
    exact ih fun x hx => h x (List.mem_cons_of_mem c hx)

/-! ### Claim C1 — builder completeness -/

/-- C1 (counterexample): the claim fails on the code in two ways. A partial
with all ten pre-signature fields set but no signature does NOT build (the
code also requires the signature), and on a partial whose first unset field
in the claim's canonical order is `verification_gas_limit` the error
instead names `pre_verification_gas` (the code checks
`pre_verification_gas` first, and likewise `max_priority_fee_per_gas`
before `max_fee_per_gas`). -/
theorem c1_counterexample :
    (tenPreSignatureFieldsSet partialNoSig = true ∧
      build_uo partialNoSig = .error (.missingUserOperationField "signature")) ∧
    (canonicalFirstUnsetField partialGasUnset = some "verification_gas_limit" ∧
      build_uo partialGasUnset = .error (.missingUserOperationField "pre_verification_gas")) := by
  exact ⟨⟨rfl, rfl⟩, ⟨rfl, rfl⟩⟩

/-- C1 (amended): `build_uo` succeeds iff ALL ELEVEN fields — the signature
included — are set, and on failure the error names the first unset field in
the order the code checks them: sender, nonce, init_code, call_data,
call_gas_limit, pre_verification_gas, verification_gas_limit,
max_priority_fee_per_gas, max_fee_per_gas, paymaster_and_data, signature
(src/uo_builder.rs:381-449). -/
theorem c1_build_uo_characterization (uo : UserOperationPartial) :
    exceptIsOk (build_uo uo) = allFieldsSet uo ∧
    (match firstUnsetField uo with
     | none => True
     | some name => build_uo uo = .error (.missingUserOperationField name)) := by
  rcases uo with ⟨s, n, ic, cd, cgl, vgl, pvg, mf, mpf, pad, sig⟩
  cases s <;> cases n <;> cases ic <;> cases cd <;> cases cgl <;> cases vgl <;>
    cases pvg <;> cases mf <;> cases mpf <;> cases pad <;> cases sig <;>
    exact ⟨rfl, by trivial⟩

/-! ### Claim C5 — idempotent scw derivation -/

/-- C5 (code bug evaluated): on a builder whose `scw_address` is already set
to 5, `set_scw_address` nevertheless issues the factory `generate_address`
on-chain query, overwrites the stored address with the query result (105
here), and returns the query result — contradicting the function's own doc
comment ("otherwise return the existing `self.scw_address`",
src/uo_builder.rs:193-194) and the claim. -/
theorem c5_code_bug_eval :
    builderScwSet.scw_address = some 5 ∧
    set_scw_address (mkEnv [] (.ok ⟨1, 1, 1⟩) (.ok 1)) builderScwSet =
      some (105, { builderScwSet with scw_address := some 105 },
        [.generateAddressCall 3 2]) :=
  ⟨rfl, rfl⟩

/-! ### Claim C6 — propagation of transport errors -/

/-- C6 (code bug evaluated): a send failure that does not downcast to
`UserOpMiddlewareError` (transport failure, serde failure) is silently
swallowed by the retry loop, which re-sends with unchanged gas values
instead of returning the error: with responses [transport-error, success]
the loop succeeds on the second send with the same gas triple, and with a
single transport-error response it is still looping. -/
theorem c6_code_bug_eval :
    retryLoop 10000 ⟨1, 1, 1000000⟩ [.error .transport, .ok 7] =
      .sent 7 ⟨1, 1, 1000000⟩ ∧
    retryLoop 10000 ⟨1, 1, 1000000⟩ [.error .transport] =
      .pending ⟨1, 1, 1000000⟩ :=
  ⟨rfl, rfl⟩

/-! ### Claim C8 — receipt null handling -/

/-- C8 (counterexample): when the bundler answers
`eth_getUserOperationReceipt` with a null result (operation not yet mined),
`get_user_operation_receipt` FAILS instead of returning a null outcome: the
`result` field of `Response<UserOperationReceipt>` (src/types.rs:36-41) is
not optional, so the serde decode of a null result errors and the error is
propagated. -/
theorem c8_counterexample :
    get_user_operation_receipt ReceiptWireResult.nullResult =
      .error .transport := rfl

/-- C8 (amended): `get_user_operation_receipt` returns the receipt when the
operation is mined; while it is not yet mined (null result) the decode of
`Response<UserOperationReceipt>` fails and the call returns an error — the
function's signature has no null case at all. -/
theorem c8_receipt_behaviour :
    (∀ r, get_user_operation_receipt (.receipt r) = .ok r) ∧
    exceptIsOk (get_user_operation_receipt .nullResult) = false :=
  ⟨fun _ => rfl, rfl⟩

/-! ### Claim C9 — the dummy signature -/

set_option maxRecDepth 100000 in
/-- C9 (counterexample): the constant does hex-decode to 65 bytes, but the
placeholder the middleware attaches is `DUMMY_SIGNATURE.as_bytes().to_vec()`
(src/userop_middleware.rs:336, 569, 781) — the 132 ASCII bytes of the
string literal itself, not its 65-byte hex decoding. -/
theorem c9_counterexample :
    dummySignatureBytes.length = 132 ∧
    (hexDecodeStr DUMMY_SIGNATURE).map List.length = some 65 ∧
    some dummySignatureBytes ≠ hexDecodeStr DUMMY_SIGNATURE := by
  refine ⟨by decide, by decide, by decide⟩

set_option maxRecDepth 100000 in
/-- C9 (amended): `DUMMY_SIGNATURE` hex-decodes to exactly 65 bytes, but
the placeholder signature attached before gas estimation by `call`,
`send_eth` and `create_scw_deployment_uo` is the 132-byte ASCII byte-string
of the constant (including the `0x` prefix), not the hex-decoded value. -/
theorem c9_dummy_signature (scw nonce pf : Nat) (cd : Bytes) :
    (hexDecodeStr DUMMY_SIGNATURE).map List.length = some 65 ∧
    dummySignatureBytes = strAsBytes DUMMY_SIGNATURE ∧
    dummySignatureBytes.length = 132 ∧
    (callInitialPartial scw nonce cd pf).signature = some dummySignatureBytes ∧
    (sendEthInitialPartial scw nonce cd pf).signature = some dummySignatureBytes ∧
    (∃ b, create_scw_deployment_uo (mkEnv [] (.ok ⟨1, 1, 1⟩) (.ok 1)) 11
        "simple-account" 2 = some (.ok b) ∧
      b.uo.signature = some dummySignatureBytes) ∧
    some dummySignatureBytes ≠ hexDecodeStr DUMMY_SIGNATURE := by
  refine ⟨by decide, rfl, by decide, rfl, rfl, ⟨_, rfl, rfl⟩, by decide⟩

/-! ### Claim C10 — the salt precondition of `set_scw_address` -/

/-- C10: a builder constructed by `new` with `salt = None` makes
`set_scw_address` panic (the `self.salt.expect("salt is None")` unwrap,
src/uo_builder.rs:203, modelled as `none`) rather than return an error
value; whenever the salt is set, the panic branch is unreachable and the
call produces a value. -/
theorem c10_set_scw_address_salt_precondition (env : Env) (eoa : Address)
    (name : String) (scw : Option Address) (b bs : UserOperationBuilder) (s : Nat)
    (hb : UserOperationBuilder.new eoa name scw none = .ok b)
    (hbs : bs.salt = some s) :
    set_scw_address env b = none ∧ (set_scw_address env bs).isSome = true := by
  constructor
  · have hsalt : b.salt = none := by
      unfold UserOperationBuilder.new at hb
      cases h : walletFactoryFromStr name with
      | error e => rw [h] at hb; cases hb
      | ok fa => rw [h] at hb; cases hb; rfl
    unfold set_scw_address
    rw [hsalt]
  · unfold set_scw_address
    rw [hbs]
    rfl

/-- C10 (witness). -/
theorem c10_witness :
    set_scw_address (mkEnv [] (.ok ⟨1, 1, 1⟩) (.ok 1)) builderNoSalt = none ∧
    (set_scw_address (mkEnv [] (.ok ⟨1, 1, 1⟩) (.ok 1)) builderSalted).isSome = true :=
  c10_set_scw_address_salt_precondition _ 3 "simple-account" none _ _ 2 rfl rfl

/-! ### Claim C2 — retry monotonicity -/

theorem submittedGas_head_eq (incr : Nat) (g : GasState) (rs : List SendResp) :
    ∀ b ∈ (submittedGas incr g rs).head?, b = g := by
  cases rs with
  | nil => intro b hb; cases hb
  | cons r rest =>
    intro b hb
    have hh : (submittedGas incr g (r :: rest)).head? = some g := rfl
    rw [hh] at hb
    simp only [Option.mem_some_iff] at hb
    exact hb.symm

/-- C2 (counterexample): the loop SETS `call_gas_limit` to the bundler's
numeric hint, so a hint below the currently submitted value makes the
submitted `call_gas_limit` decrease: with a submitted gas state
(44582, 23338, 100000) and a `CallGasLimitError` response carrying hint
100, the next submitted state is (44582, 100, 100000). -/
theorem c2_counterexample :
    ¬ List.Chain' gasLE (submittedGas 10000 ⟨44582, 23338, 100000⟩
      [.error (.mw (.callGasLimitError 23338 100)), .ok 1]) := by
  intro h
  have h2 : submittedGas 10000 ⟨44582, 23338, 100000⟩
      [.error (.mw (.callGasLimitError 23338 100)), .ok 1] =
      [⟨44582, 23338, 100000⟩, ⟨44582, 100, 100000⟩] := rfl
  rw [h2] at h
  exact absurd (List.chain'_cons.mp h).1.2.1 (by decide)

/-- C2 (amended): over the retry loop of `call` and `send_eth`, the
submitted `call_gas_limit`, `pre_verification_gas` and
`verification_gas_limit` are non-decreasing PROVIDED every numeric hint in
the bundler's gas-error responses is at least the value submitted at that
iteration (which is what the bundler's "N is lower than M" messages
assert); the `verification_gas_limit` updates are additive and need no such
hypothesis. -/
theorem c2_retry_monotonic (incr : Nat) (g : GasState) (rs : List SendResp)
    (h : hintsFaithful incr g rs = true) :
    List.Chain' gasLE (submittedGas incr g rs) := by
  induction rs generalizing g with
  | nil => simp [submittedGas]
  | cons r rest ih =>
    cases r with
    | ok hash => simp [submittedGas]
    | error e =>
      cases e with
      | mw me =>
        cases me with
        | middlewareError => simp [submittedGas]
        | callGasLimitError l est =>
          simp only [submittedGas]
          simp only [hintsFaithful, Bool.and_eq_true, decide_eq_true_eq] at h
          refine List.chain'_cons'.mpr ⟨?_, ih _ h.2⟩
          intro b hb
          rw [submittedGas_head_eq incr _ rest b hb]
          exact ⟨Nat.le_refl _, h.1, Nat.le_refl _⟩
        | preVerificationGasError p calcd =>
          simp only [submittedGas]
          simp only [hintsFaithful, Bool.and_eq_true, decide_eq_true_eq] at h
          refine List.chain'_cons'.mpr ⟨?_, ih _ h.2⟩
          intro b hb
          rw [submittedGas_head_eq incr _ rest b hb]
          exact ⟨h.1, Nat.le_refl _, Nat.le_refl _⟩
        | verificationGasLimitError =>
          simp only [submittedGas]
          simp only [hintsFaithful] at h
          refine List.chain'_cons'.mpr ⟨?_, ih _ h⟩
          intro b hb
          rw [submittedGas_head_eq incr _ rest b hb]
          exact ⟨Nat.le_refl _, Nat.le_refl _, Nat.le_add_right _ _⟩
        | unknownError => simp [submittedGas]
        | userOpBuilderError e => simp [submittedGas]
      | builder e =>
        simp only [submittedGas]
        simp only [hintsFaithful] at h
        refine List.chain'_cons'.mpr ⟨?_, ih _ h⟩
        intro b hb
        rw [submittedGas_head_eq incr _ rest b hb]
        exact ⟨Nat.le_refl _, Nat.le_refl _, Nat.le_refl _⟩
      | transport =>
        simp only [submittedGas]
        simp only [hintsFaithful] at h
        refine List.chain'_cons'.mpr ⟨?_, ih _ h⟩
        intro b hb
        rw [submittedGas_head_eq incr _ rest b hb]
        exact ⟨Nat.le_refl _, Nat.le_refl _, Nat.le_refl _⟩
      | message s =>
        simp only [submittedGas]
        simp only [hintsFaithful] at h
        refine List.chain'_cons'.mpr ⟨?_, ih _ h⟩
        intro b hb
        rw [submittedGas_head_eq incr _ rest b hb]
        exact ⟨Nat.le_refl _, Nat.le_refl _, Nat.le_refl _⟩

/-- C2 (witness): monotone submitted gas over a faithful-hint trace from
scenario S3 (hint 23338 above the submitted 22797). -/
theorem c2_witness :
    hintsFaithful 10000 ⟨44582, 22797, 100000⟩
        [.error (.mw (.callGasLimitError 22797 23338)), .ok 5] = true ∧
    List.Chain' gasLE (submittedGas 10000 ⟨44582, 22797, 100000⟩
        [.error (.mw (.callGasLimitError 22797 23338)), .ok 5]) :=
  ⟨by decide, c2_retry_monotonic 10000 ⟨44582, 22797, 100000⟩ _ (by decide)⟩

/-! ### Claim C4 — response handling and error classification -/

/-- C4: `handle_response` decodes the body as a success envelope first and
returns its result; on failure it decodes it as an error envelope and
classifies the message: a message of the shape
`Call gas limit N is lower than call gas estimation M` yields
`CallGasLimitError(N, M)`; a message of the shape
`Pre-verification gas N is lower than calculated pre-verification gas M`
yields `PreVerificationGasError(N, M)`; a message matching neither regex
but containing `AA40 over verificationGasLimit` yields
`VerificationGasLimitError`; every other message yields `UnknownError`
(`N`, `M` bounded by the `u64` range the code parses into). -/
theorem c4_handle_response_classification
    (n m : Nat) (hn : n < U64_LIMIT) (hm : m < U64_LIMIT)
    (msgA msgU : List Char)
    (hA1 : findFirstMatch callGasLit1 callGasLit2 msgA = none)
    (hA2 : findFirstMatch preVerLit1 preVerLit2 msgA = none)
    (hA3 : containsSubstring aa40Lit msgA = true)
    (hU1 : findFirstMatch callGasLit1 callGasLit2 msgU = none)
    (hU2 : findFirstMatch preVerLit1 preVerLit2 msgU = none)
    (hU3 : containsSubstring aa40Lit msgU = false)
    (bS bE bN : BundlerHttpBody Nat) (r : RpcResponse Nat) (er : ErrorResponse)
    (hbS : bS.decodeSuccess = some r)
    (hbE1 : bE.decodeSuccess = none) (hbE2 : bE.decodeError = some er)
    (hbN1 : bN.decodeSuccess = none) (hbN2 : bN.decodeError = none) :
    classifyErrorMessage (callGasMsg n m) = .callGasLimitError n m ∧
    classifyErrorMessage (preVerMsg n m) = .preVerificationGasError n m ∧
    classifyErrorMessage msgA = .verificationGasLimitError ∧
    classifyErrorMessage msgU = .unknownError ∧
    handle_response bS = .success r ∧
    handle_response bE =
      classifiedToHandleResult (classifyErrorMessage er.error.message) ∧
    handle_response bN = .failure .transport := by
  have hfindC : findFirstMatch callGasLit1 callGasLit2 (callGasMsg n m) =
      some (natDigits n, natDigits m) := by
    apply findFirstMatch_here
    · unfold callGasMsg
      exact append_ne_nil _ _ (by decide)
    · unfold callGasMsg
      exact matchTwoNumPattern_exact _ _ ' '
        "is lower than call gas estimation ".data (by decide) (by decide) n m
  have hfindP : findFirstMatch preVerLit1 preVerLit2 (preVerMsg n m) =
      some (natDigits n, natDigits m) := by
    apply findFirstMatch_here
    · unfold preVerMsg
      exact append_ne_nil _ _ (by decide)
    · unfold preVerMsg
      exact matchTwoNumPattern_exact _ _ ' '
        "is lower than calculated pre-verification gas ".data
        (by decide) (by decide) n m
  have hCmem : ∀ c ∈ preVerMsg n m, c ≠ 'C' := by
    intro c hc
    unfold preVerMsg at hc
    rcases List.mem_append.mp hc with h1 | h'
    · exact (by decide : ∀ c ∈ preVerLit1, c ≠ 'C') c h1
    · rcases List.mem_append.mp h' with h2 | h''
      · exact isDigit_ne_of_not_digit (natDigits_all_digit n c h2) (by decide)
      · rcases List.mem_append.mp h'' with h3 | h4
        · exact (by decide : ∀ c ∈ preVerLit2, c ≠ 'C') c h3
        · exact isDigit_ne_of_not_digit (natDigits_all_digit m c h4) (by decide)
  have hnoC : findFirstMatch callGasLit1 callGasLit2 (preVerMsg n m) = none := by
    rw [show callGasLit1 = 'C' :: "all gas limit ".data from by decide]
    exact findFirstMatch_none_of_head_absent _ _ _ _ hCmem
  refine ⟨?_, ?_, ?_, ?_, ?_, ?_, ?_⟩
  · simp [classifyErrorMessage, hfindC, parseU64_natDigits hn, parseU64_natDigits hm]
  · simp [classifyErrorMessage, hnoC, hfindP, parseU64_natDigits hn,
      parseU64_natDigits hm]
  · simp [classifyErrorMessage, hA1, hA2, hA3]
  · simp [classifyErrorMessage, hU1, hU2, hU3]
  · simp [handle_response, hbS]
  · simp [handle_response, hbE1, hbE2]
  · simp [handle_response, hbN1, hbN2]

set_option maxRecDepth 100000 in
/-- C4 (witness): concrete instances — scenario S3's message numbers, an
AA40 message, an unrecognized message, and the three body shapes. -/
theorem c4_witness :
    (22797 < U64_LIMIT ∧ 23338 < U64_LIMIT) ∧
    classifyErrorMessage (callGasMsg 22797 23338) =
      .callGasLimitError 22797 23338 ∧
    classifyErrorMessage (preVerMsg 22797 23338) =
      .preVerificationGasError 22797 23338 ∧
    classifyErrorMessage ("AA40 over verificationGasLimit".data) =
      .verificationGasLimitError ∧
    classifyErrorMessage ("execution reverted".data) = .unknownError ∧
    handle_response bodySuccess = .success ⟨"2.0".data, 1, 42⟩ ∧
    handle_response bodyAa40 = classifiedToHandleResult
      (classifyErrorMessage ("AA40 over verificationGasLimit".data)) ∧
    handle_response bodyUndecodable = .failure .transport := by
  have h := c4_handle_response_classification 22797 23338 (by decide) (by decide)
    ("AA40 over verificationGasLimit".data) ("execution reverted".data)
    (by decide) (by decide) (by decide) (by decide) (by decide) (by decide)
    bodySuccess bodyAa40 bodyUndecodable ⟨"2.0".data, 1, 42⟩
    ⟨"2.0".data, 1, ⟨-32602, "AA40 over verificationGasLimit".data⟩⟩
    rfl rfl rfl rfl rfl
  exact ⟨⟨by decide, by decide⟩, h.1, h.2.1, h.2.2.1, h.2.2.2.1, h.2.2.2.2.1,
    h.2.2.2.2.2.1, h.2.2.2.2.2.2⟩

/-! ### Claim C7 — WalletAlreadyDeployed precedes any send -/

/-- C7: when `eth_getCode` of the derived counter-factual address returns
non-empty code, `deploy_scw` fails with the wallet-already-deployed error
(`SmartContractWalletHasBeenDeployed`) immediately, with an empty bundler
request trace — in particular no `eth_sendUserOperation` is issued
(src/userop_middleware.rs:744-751 inside `create_scw_deployment_uo`, called
first by `deploy_scw`). -/
theorem c7_deploy_rejects_deployed (env : Env) (signer : Address) (name : String)
    (fa : Address) (pre_fund salt : Nat)
    (hname : walletFactoryFromStr name = .ok fa)
    (hcode : env.getCode (env.generateAddress signer salt) ≠ []) :
    deploy_scw env signer name pre_fund salt =
      some (.error (.mw (.userOpBuilderError .smartContractWalletHasBeenDeployed)),
        []) := by
  have hne : (env.getCode (env.generateAddress signer salt)).isEmpty = false := by
    cases hx : env.getCode (env.generateAddress signer salt) with
    | nil => exact absurd hx hcode
    | cons a t => rfl
  unfold deploy_scw create_scw_deployment_uo UserOperationBuilder.new set_scw_address
  rw [hname]
  simp [hne]

/-- C7 (witness): an environment whose `eth_getCode` answer is the one-byte
code `[1]`. -/
theorem c7_witness :
    walletFactoryFromStr "simple-account" = .ok SIMPLE_ACCOUNT_FACTORY ∧
    (mkEnv [1] (.ok ⟨1, 1, 1⟩) (.ok 1)).getCode
      ((mkEnv [1] (.ok ⟨1, 1, 1⟩) (.ok 1)).generateAddress 3 2) ≠ [] ∧
    deploy_scw (mkEnv [1] (.ok ⟨1, 1, 1⟩) (.ok 1)) 3 "simple-account" 10 2 =
      some (.error (.mw (.userOpBuilderError .smartContractWalletHasBeenDeployed)),
        []) :=
  ⟨rfl, by decide,
    c7_deploy_rejects_deployed _ 3 "simple-account" SIMPLE_ACCOUNT_FACTORY 10 2
      rfl (by decide)⟩

/-! ### Claim C3 — deploy_scw does not retry -/

/-- C3 (counterexample): with a bundler that answers the deployment send
with `CallGasLimitError(1, 999)`, `deploy_scw` returns exactly that error
after a single `eth_sendUserOperation` — it does not adjust, re-sign and
resubmit. -/
theorem c3_counterexample :
    (deploy_scw envSendCallGasError 3 "simple-account" 10 2).map Prod.fst =
      some (.error (.mw (.callGasLimitError 1 999))) ∧
    (deploy_scw envSendCallGasError 3 "simple-account" 10 2).map
      (fun p => countSendRequests p.2) = some 1 := by
  exact ⟨rfl, rfl⟩

/-- C3 (amended): `deploy_scw` runs NO retry controller: after one estimate
it sets `pre_verification_gas` to estimate+1000 (saturating),
`call_gas_limit` to twice the estimate (saturating) and
`verification_gas_limit` to the estimate, then sends exactly once and
propagates any send error — the three gas errors included — to the caller;
it returns successfully only when that single send succeeds
(src/userop_middleware.rs:668-703). -/
theorem c3_deploy_single_send (env : Env) (signer : Address) (name : String)
    (fa : Address) (pre_fund salt : Nat) (est : EstimateResult)
    (hname : walletFactoryFromStr name = .ok fa)
    (hcode : env.getCode (env.generateAddress signer salt) = [])
    (hfund : env.preFundOk = true)
    (hest : env.estimateResp = .ok est) :
    ∃ s1 s2 : UserOperation,
      deploy_scw env signer name pre_fund salt =
        some ((match env.sendResp with
               | .ok h => .ok (h, env.generateAddress signer salt)
               | .error e => .error e),
              [.estimateUserOperationGas s1, .sendUserOperation s2]) ∧
      s2.pre_verification_gas = satAdd est.pre_verification_gas 1000 ∧
      s2.call_gas_limit = satMul est.call_gas_limit 2 ∧
      s2.verification_gas_limit = est.verification_gas_limit := by
  refine ⟨signUoWith env
      { sender := env.generateAddress signer salt
        nonce := env.getTransactionCount (env.generateAddress signer salt)
        init_code := addressBytes fa ++ env.createAccountCalldata signer salt
        call_data := env.executeCalldata 0 0 []
        call_gas_limit := 1, verification_gas_limit := 1000000
        pre_verification_gas := 1, max_fee_per_gas := 1
        max_priority_fee_per_gas := 1, paymaster_and_data := []
        signature := dummySignatureBytes },
    signUoWith env
      { sender := env.generateAddress signer salt
        nonce := env.getTransactionCount (env.generateAddress signer salt)
        init_code := addressBytes fa ++ env.createAccountCalldata signer salt
        call_data := env.executeCalldata 0 0 []
        call_gas_limit := satMul est.call_gas_limit 2
        verification_gas_limit := est.verification_gas_limit
        pre_verification_gas := satAdd est.pre_verification_gas 1000
        max_fee_per_gas := env.fees.1
        max_priority_fee_per_gas := env.fees.2
        paymaster_and_data := []
        signature := dummySignatureBytes },
    ?_, rfl, rfl, rfl⟩
  unfold deploy_scw create_scw_deployment_uo UserOperationBuilder.new set_scw_address
  rw [hname]
  dsimp only
  rw [hcode]
  dsimp only [List.isEmpty_nil, if_true]
  rw [hfund]
  dsimp only [build_uo, if_true]
  rw [hest]
  dsimp only [build_uo]
  cases hsend : env.sendResp with
  | ok h => rfl
  | error e => rfl

/-- C3 (witness): the single-send behaviour at the concrete environment of
the counterexample (estimate (21000, 300000, 30000), send answered with a
gas error). -/
theorem c3_witness :
    walletFactoryFromStr "simple-account" = .ok SIMPLE_ACCOUNT_FACTORY ∧
    envSendCallGasError.preFundOk = true ∧
    (∃ s1 s2 : UserOperation,
      deploy_scw envSendCallGasError 3 "simple-account" 10 2 =
        some ((match envSendCallGasError.sendResp with
               | .ok h => .ok (h, envSendCallGasError.generateAddress 3 2)
               | .error e => .error e),
              [.estimateUserOperationGas s1, .sendUserOperation s2]) ∧
      s2.pre_verification_gas = satAdd 21000 1000 ∧
      s2.call_gas_limit = satMul 30000 2 ∧
      s2.verification_gas_limit = 300000) :=
  ⟨rfl, rfl,
    c3_deploy_single_send envSendCallGasError 3 "simple-account"
      SIMPLE_ACCOUNT_FACTORY 10 2 ⟨21000, 300000, 30000⟩ rfl rfl rfl rfl⟩

end EthersUserop
